import Mathlib

/-!
Verification of the auxiliary local devtools server subsystem of
next-plugin-devtools-json, shallowly embedded from src/index.ts.

Conventions of the embedding:
* The Result type of src/result.ts (ok / err / tryCatch / andThen / map)
  is modelled by Except: tryCatch of a throwing thunk becomes an explicit
  Except value, andThen is Except bind.
* Filesystem effects (existsSync, readFileSync, mkdirSync, writeFileSync)
  are modelled by explicit state passing over a finite file table FS,
  together with an event trace recording which operations ran.
  In the model mkdir and write always succeed; the claims under study
  quantify over the success paths of the filesystem.
* crypto.randomUUID is modelled by a caller-supplied string gen: the value
  the generator would return when called.
* Machine integers: ports are Int (JavaScript numbers under small-integer
  arithmetic), attempt counters are Nat.
-/

deriving instance DecidableEq for Except

namespace DevtoolsJson

/-- Characters of sub occur contiguously in cs (JavaScript
String.prototype.includes over the character list). -/
def charsContains (cs sub : List Char) : Bool :=
  sub.isPrefixOf cs ||
  match cs with
  | [] => false
  | _ :: rest => charsContains rest sub

/-- JavaScript String.prototype.includes. -/
def strIncludes (s sub : String) : Bool :=
  charsContains s.data sub.data

/-- JavaScript String.prototype.trim: leading and trailing whitespace
removed. -/
def jsTrim (s : String) : String :=
  ⟨((s.data.dropWhile Char.isWhitespace).reverse.dropWhile
      Char.isWhitespace).reverse⟩

/-- Hex digit class of the case-insensitive UUID regex character class
0-9a-f with the i flag. -/
def isHexChar (c : Char) : Bool :=
  (decide ('0' ≤ c) && decide (c ≤ '9')) ||
  (decide ('a' ≤ c) && decide (c ≤ 'f')) ||
  (decide ('A' ≤ c) && decide (c ≤ 'F'))

/-- Variant character class 89ab of the UUID v4 regex, case-insensitive. -/
def isVariantChar (c : Char) : Bool :=
  c == '8' || c == '9' || c == 'a' || c == 'b' || c == 'A' || c == 'B'

/-- The anchored test of the regex in UUIDManager.validate:
8 hex, dash, 4 hex, dash, the literal 4 then 3 hex, dash, one of 89ab then
3 hex, dash, 12 hex, case-insensitively. Positions 8, 13, 18, 23 hold the
dashes, position 14 the version nibble, position 19 the variant nibble. -/
def uuidV4Test (s : String) : Bool :=
  let cs := s.data
  cs.length == 36 &&
  ((List.range 36).all fun i =>
    let c := cs.getD i ' '
    if i == 8 || i == 13 || i == 18 || i == 23 then c == '-'
    else if i == 14 then c == '4'
    else if i == 19 then isVariantChar c
    else isHexChar c)

/-- Operation tag of UUIDError. -/
inductive UUIDOp
  | read
  | write
  | generate
  | validate
deriving DecidableEq

/-- The UUIDError variant: operation tag, optional path, and the message of
the underlying Error value. -/
structure UUIDError where
  operation : UUIDOp
  path : Option String
  causeMsg : String
deriving DecidableEq

/-- Finite filesystem state: a file table and a set of existing
directories. -/
structure FS where
  files : List (String × String)
  dirs : List String
deriving DecidableEq

def FS.readFile (fs : FS) (p : String) : Option String :=
  (fs.files.find? (fun e => e.1 == p)).map (fun e => e.2)

def FS.fileExists (fs : FS) (p : String) : Bool :=
  (fs.readFile p).isSome

def FS.dirExists (fs : FS) (p : String) : Bool :=
  fs.dirs.contains p

def FS.writeFile (fs : FS) (p c : String) : FS :=
  { fs with files := (p, c) :: fs.files.filter (fun e => e.1 != p) }

def FS.mkdir (fs : FS) (p : String) : FS :=
  { fs with dirs := p :: fs.dirs }

/-- Trace of filesystem operations performed by one call. -/
inductive FSEvent
  | checkExists (p : String)
  | readFile (p : String)
  | mkdir (p : String)
  | writeFile (p : String) (content : String)
deriving DecidableEq

/-- An event that mutates the filesystem. -/
def FSEvent.isWrite : FSEvent → Bool
  | .writeFile _ _ => true
  | .mkdir _ => true
  | _ => false

/-- JavaScript truthiness of the optional providedUuid argument:
undefined and the empty string are falsy. -/
def jsTruthy : Option String → Bool
  | none => false
  | some s => !(s == "")

/-- path.resolve(projectRoot, ".next", "cache"). -/
def UUIDManager.cacheDirOf (projectRoot : String) : String :=
  projectRoot ++ "/.next/cache"

/-- path.resolve(cacheDir, "devtools-uuid.json"). -/
def UUIDManager.uuidPathOf (projectRoot : String) : String :=
  UUIDManager.cacheDirOf projectRoot ++ "/devtools-uuid.json"

/-- UUIDManager.validate: test against the UUID v4 regex, returning the
input unchanged on success and a validate-tagged UUIDError otherwise. -/
def UUIDManager.validate (uuid : String) : Except UUIDError String :=
  if uuidV4Test uuid then .ok uuid
  else .error { operation := .validate, path := none,
                causeMsg := "Invalid UUID format: " ++ uuid }

/-- UUIDManager.read: existsSync check (a missing file throws, caught as a
read-tagged UUIDError), then readFileSync, trim, andThen validate. -/
def UUIDManager.read (fs : FS) (uuidPath : String) :
    Except UUIDError String × List FSEvent :=
  match fs.readFile uuidPath with
  | none =>
      (.error { operation := .read, path := some uuidPath,
                causeMsg := "UUID file does not exist" },
       [FSEvent.checkExists uuidPath])
  | some content =>
      (UUIDManager.validate (jsTrim content),
       [FSEvent.checkExists uuidPath, FSEvent.readFile uuidPath])

/-- UUIDManager.createAndPersist: mkdirSync the cache directory when it is
absent, then write the freshly generated UUID as the whole file content. -/
def UUIDManager.createAndPersist (fs : FS) (cacheDir uuidPath gen : String) :
    Except UUIDError String × FS × List FSEvent :=
  if fs.dirExists cacheDir then
    (.ok gen, fs.writeFile uuidPath gen,
     [FSEvent.checkExists cacheDir, FSEvent.writeFile uuidPath gen])
  else
    (.ok gen, (fs.mkdir cacheDir).writeFile uuidPath gen,
     [FSEvent.checkExists cacheDir, FSEvent.mkdir cacheDir,
      FSEvent.writeFile uuidPath gen])

/-- UUIDManager.getOrCreate: a truthy providedUuid is validated and used
as is; otherwise the cached value is read, and on any read failure a fresh
UUID is generated and persisted. -/
def UUIDManager.getOrCreate (fs : FS) (projectRoot : String)
    (providedUuid : Option String) (gen : String) :
    Except UUIDError String × FS × List FSEvent :=
  if jsTruthy providedUuid then
    (UUIDManager.validate (providedUuid.getD ""), fs, [])
  else
    let cacheDir := UUIDManager.cacheDirOf projectRoot
    let uuidPath := UUIDManager.uuidPathOf projectRoot
    match UUIDManager.read fs uuidPath with
    | (.ok u, evs) => (.ok u, fs, evs)
    | (.error _, evs) =>
        match UUIDManager.createAndPersist fs cacheDir uuidPath gen with
        | (r, fs2, evs2) => (r, fs2, evs ++ evs2)

/-- The ServerError variant: operation name, optional port, and the
message of the underlying Error value. -/
structure ServerError where
  operation : String
  port : Option Int
  causeMsg : String
deriving DecidableEq

/-- The DevToolsError union of src/index.ts. -/
inductive DevToolsError
  | portExhausted (attempts : Nat) (lastPort : Int)
  | uuidError (e : UUIDError)
  | serverError (e : ServerError)
  | fileSystemError (path : String) (operation : String) (causeMsg : String)
  | configError (message : String)
deriving DecidableEq

/-- The test error.cause.message.includes EADDRINUSE on a ServerError. -/
def ServerError.isAddrInUse (e : ServerError) : Bool :=
  strIncludes e.causeMsg "EADDRINUSE"

/-- The message Node gives a listen attempt on an occupied port. -/
def EADDRINUSE_MSG : String := "listen EADDRINUSE: address already in use"

/-- The ServerError produced by startServerOnPort when the port is
occupied. -/
def eaddrInUseError (port : Int) : ServerError :=
  { operation := "listen", port := some port, causeMsg := EADDRINUSE_MSG }

/-- A bind environment derived from a port-occupancy predicate: an occupied
port fails with the address-in-use ServerError, a free port binds. -/
def bindOf (occ : Int → Bool) : Int → Option ServerError :=
  fun p => if occ p then some (eaddrInUseError p) else none

/-- The while loop of DevToolsServer.tryStartServer, parametrised by the
outcome bindOnPort of startServerOnPort at each port (none models a
successful listen). The loop counter attempts of the source counts up to
maxPortAttempts; here the equivalent remaining budget
maxPortAttempts - attempts counts down, so the guard
attempts < maxPortAttempts of the source is the successor pattern.
Returns the result together with the list of ports on which a bind was
attempted, in order. -/
def DevToolsServer.tryStartLoop (bindOnPort : Int → Option ServerError)
    (maxPortAttempts : Nat) :
    Int → Nat → Except DevToolsError Int × List Int
  | currentPort, 0 =>
      (.error (.portExhausted maxPortAttempts (currentPort - 1)), [])
  | currentPort, remaining + 1 =>
    match bindOnPort currentPort with
    | none => (.ok currentPort, [currentPort])
    | some e =>
      if e.isAddrInUse then
        let r := DevToolsServer.tryStartLoop bindOnPort maxPortAttempts
          (currentPort + 1) remaining
        (r.1, currentPort :: r.2)
      else
        (.error (.serverError e), [currentPort])

/-- DevToolsServer.tryStartServer: the retry loop started at initialPort
with zero attempts used, that is with the full budget remaining. -/
def DevToolsServer.tryStartServer (bindOnPort : Int → Option ServerError)
    (initialPort : Int) (maxPortAttempts : Nat) :
    Except DevToolsError Int × List Int :=
  DevToolsServer.tryStartLoop bindOnPort maxPortAttempts initialPort
    maxPortAttempts

/-- An incoming HTTP request as handleRequest sees it: a method string and
the optional req.url. -/
structure HttpRequest where
  method : String
  url : Option String
deriving DecidableEq

/-- The response handleRequest writes: status code, headers set, body. -/
structure HttpResponse where
  statusCode : Nat
  headers : List (String × String)
  body : String
deriving DecidableEq

/-- The pathname component computed by url.parse on a path-style request
URL: the part before any query string or fragment. -/
def urlPathname (u : String) : String :=
  ⟨u.data.takeWhile (fun c => c != '?' && c != '#')⟩

/-- JSON string escaping as performed by JSON.stringify on the root and
uuid fields (quote, backslash and the common control characters; other
characters in scope here are printable and pass through unchanged). -/
def jsonEscapeChar (c : Char) : String :=
  if c == '"' then "\\\""
  else if c == '\\' then "\\\\"
  else if c == '\n' then "\\n"
  else if c == '\r' then "\\r"
  else if c == '\t' then "\\t"
  else String.singleton c

def jsonQuote (s : String) : String :=
  "\"" ++ String.join (s.data.map jsonEscapeChar) ++ "\""

/-- JSON.stringify of the DevToolsJSON value with indentation 2, exactly
as the 200 branch of handleRequest serialises it. -/
def devtoolsJsonBody (projectRoot uuid : String) : String :=
  "\x7b\n  \"workspace\": \x7b\n    \"root\": " ++ jsonQuote projectRoot ++
  ",\n    \"uuid\": " ++ jsonQuote uuid ++ "\n  \x7d\n\x7d"

/-- DevToolsServer.handleRequest: a missing req.url is 404; the configured
endpoint path answers 200 with the workspace JSON, CORS open; every other
path answers 404. The method is not inspected. -/
def DevToolsServer.handleRequest (endpoint uuid projectRoot : String)
    (req : HttpRequest) : HttpResponse :=
  match req.url with
  | none => { statusCode := 404, headers := [], body := "Not Found" }
  | some u =>
    if urlPathname u == endpoint then
      { statusCode := 200,
        headers := [("Content-Type", "application/json"),
                    ("Access-Control-Allow-Origin", "*")],
        body := devtoolsJsonBody projectRoot uuid }
    else
      { statusCode := 404, headers := [], body := "Not Found" }

/-- The fixed path the consuming browser tool requests. -/
def CHROME_DEVTOOLS_PATH : String :=
  "/.well-known/appspecific/com.chrome.devtools.json"

/-- One Next.js rewrite rule. -/
structure Rewrite where
  source : String
  destination : String
deriving DecidableEq

/-- createRewrites: both the configured endpoint and the well-known Chrome
path are forwarded to the devtools server at the configured endpoint. -/
def createRewrites (endpoint : String) (port : Int) : List Rewrite :=
  [ { source := endpoint,
      destination := "http://localhost:" ++ toString port ++ endpoint },
    { source := CHROME_DEVTOOLS_PATH,
      destination := "http://localhost:" ++ toString port ++ endpoint } ]

/-- Modelled from the spec: the host framework forwards a request whose
pathname equals the source of a rewrite to that rewrite destination; the
first matching rule applies. The rewrite engine itself is an external
collaborator of this repository. -/
def applyRewrites (rewrites : List Rewrite) (pathname : String) :
    Option String :=
  (rewrites.find? (fun r => r.source == pathname)).map Rewrite.destination

/-- Modelled from the spec: the pathname of an absolute http destination
URL, which is the path the proxied request carries when it reaches the
devtools server. -/
def destPathname (dest : String) : String :=
  if "http://".data.isPrefixOf dest.data then
    ⟨(dest.data.drop 7).dropWhile (fun c => c != '/')⟩
  else dest

/-- Modelled from the spec: the response a client request receives through
the rewrite layer from a running server instance. A request matching no
rewrite never reaches the devtools server (none). -/
def servedResponse (endpoint : String) (port : Int) (uuid projectRoot : String)
    (req : HttpRequest) : Option HttpResponse :=
  match req.url with
  | none => none
  | some u =>
    match applyRewrites (createRewrites endpoint port) (urlPathname u) with
    | some dest =>
        some (DevToolsServer.handleRequest endpoint uuid projectRoot
          { method := req.method, url := some (destPathname dest) })
    | none => none

/-- The ServerState union of src/index.ts. The http.Server handle of the
running state is abstracted away; only the bound port is kept. -/
inductive ServerState
  | idle
  | starting (port : Int)
  | running (port : Int)
  | stopping
  | stopped
deriving DecidableEq

/-- The type tag string of a ServerState, as interpolated into the start
error message. -/
def ServerState.typeName : ServerState → String
  | .idle => "idle"
  | .starting _ => "starting"
  | .running _ => "running"
  | .stopping => "stopping"
  | .stopped => "stopped"

/-- DevToolsServer.getPort: the bound port when running, undefined
otherwise. -/
def DevToolsServer.getPort : ServerState → Option Int
  | .running p => some p
  | _ => none

/-- Outcome of awaiting gracefulShutdown: the close callback fired without
error in time, the shutdown deadline elapsed first, or close reported an
error. -/
inductive ShutdownOutcome
  | completed
  | timedOut
  | closeFailed (msg : String)
deriving DecidableEq

/-- DevToolsServer.stop: a no-op success outside running; from running the
state is set to stopping, gracefulShutdown is awaited, and the state ends
stopped on both the success and the failure path. Returns the state after
the call together with the returned Result. -/
def DevToolsServer.stop (st : ServerState) (shutdown : ShutdownOutcome) :
    ServerState × Except ServerError Unit :=
  match st with
  | .running _ =>
    match shutdown with
    | .completed => (.stopped, .ok ())
    | .timedOut =>
        (.stopped, .error { operation := "stop", port := none,
                            causeMsg := "Server shutdown timed out" })
    | .closeFailed msg =>
        (.stopped, .error { operation := "stop", port := none,
                            causeMsg := msg })
  | other => (other, .ok ())

/-- The ServerConfig record of src/index.ts. -/
structure ServerConfig where
  endpoint : String
  initialPort : Int
  maxPortAttempts : Nat
  shutdownTimeoutMs : Nat
  uuid : Option String
deriving DecidableEq

/-- DevToolsServer.start: legal only from idle; resolves the identity,
then runs the port-retry loop; the state becomes running only on success.
Returns the state after the call, the filesystem after identity
resolution, the Result, and the ports on which a bind was attempted. -/
def DevToolsServer.start (st : ServerState) (cfg : ServerConfig) (fs : FS)
    (projectRoot gen : String) (bindOnPort : Int → Option ServerError) :
    ServerState × FS × Except DevToolsError Int × List Int :=
  match st with
  | .idle =>
    match UUIDManager.getOrCreate fs projectRoot cfg.uuid gen with
    | (.ok _, fs2, _) =>
      match DevToolsServer.tryStartServer bindOnPort cfg.initialPort
          cfg.maxPortAttempts with
      | (.ok p, tried) => (.running p, fs2, .ok p, tried)
      | (.error e, tried) => (.idle, fs2, .error e, tried)
    | (.error e, fs2, _) => (.idle, fs2, .error (.uuidError e), [])
  | other =>
    (other, fs,
     .error (.serverError
       { operation := "start", port := none,
         causeMsg := "Cannot start server in state: " ++ other.typeName }),
     [])

/-- The in-memory state of the ServerManager singleton: the owned server
instance (an instance identity paired with its lifecycle state) if any,
and the cleanup-registered flag. -/
structure ManagerState where
  server : Option (Nat × ServerState)
  cleanupRegistered : Bool
deriving DecidableEq

/-- The fall-through path of ServerManager.startServer: a fresh
DevToolsServer is constructed (identity newId), cleanup handlers are
registered when not yet registered, and start is awaited with outcome as
its result. The returned Bool records that a new instance was
constructed. -/
def ServerManager.startFresh (m : ManagerState) (newId : Nat)
    (outcome : Except DevToolsError Int) :
    ManagerState × Except DevToolsError Int × Bool :=
  let m1 : ManagerState := { m with cleanupRegistered := true }
  match outcome with
  | .ok p => ({ m1 with server := some (newId, .running p) }, .ok p, true)
  | .error e => ({ m1 with server := some (newId, .idle) }, .error e, true)

/-- ServerManager.startServer: when an owned instance reports a port (it
is running), that port is returned and nothing is constructed; otherwise a
fresh instance is constructed and started. -/
def ServerManager.startServer (m : ManagerState) (newId : Nat)
    (outcome : Except DevToolsError Int) :
    ManagerState × Except DevToolsError Int × Bool :=
  match m.server with
  | some (_, st) =>
    match DevToolsServer.getPort st with
    | some p => (m, .ok p, false)
    | none => ServerManager.startFresh m newId outcome
  | none => ServerManager.startFresh m newId outcome

/-! Shared lemmas. -/

/-- A fixed valid UUID v4 literal used as a concrete generator output. -/
def GEN_UUID : String := "123e4567-e89b-42d3-a456-426614174000"

/-- A second fixed valid UUID v4 literal. -/
def GEN_UUID2 : String := "aabbccdd-1122-4333-9444-555566667777"

theorem eaddr_isAddrInUse (p : Int) :
    (eaddrInUseError p).isAddrInUse = true := by
  show strIncludes EADDRINUSE_MSG "EADDRINUSE" = true
  decide

theorem range_map_shift (c : Int) (d : Nat) :
    (List.range (d + 1)).map (fun j : Nat => c + (j : Int)) =
      c :: (List.range d).map (fun j : Nat => (c + 1) + (j : Int)) := by
  induction d with
  | zero => simp [List.range_succ]
  | succ d ih =>
    rw [List.range_succ, List.map_append, ih, List.range_succ,
      List.map_append]
    simp [List.cons_append]
    ring

/-- Running the retry loop over d consecutive ports that all fail with
address-in-use advances the current port by d and consumes d units of
budget, prepending those ports to the attempt trace. -/
theorem tryStartLoop_skip (bindOnPort : Int → Option ServerError) (N : Nat) :
    ∀ (d : Nat) (c : Int) (rem : Nat), d ≤ rem →
    (∀ j : Nat, j < d →
      ∃ e, bindOnPort (c + (j : Int)) = some e ∧ e.isAddrInUse = true) →
    DevToolsServer.tryStartLoop bindOnPort N c rem =
      ((DevToolsServer.tryStartLoop bindOnPort N (c + (d : Int)) (rem - d)).1,
       (List.range d).map (fun j : Nat => c + (j : Int)) ++
         (DevToolsServer.tryStartLoop bindOnPort N (c + (d : Int)) (rem - d)).2) := by
  intro d
  induction d with
  | zero => intro c rem _ _; simp
  | succ d ih =>
    intro c rem hle hbusy
    obtain ⟨rem0, rfl⟩ : ∃ r, rem = r + 1 := ⟨rem - 1, by omega⟩
    obtain ⟨e, he, haddr⟩ := hbusy 0 (by omega)
    have he0 : bindOnPort c = some e := by simpa using he
    have hrec := ih (c + 1) rem0 (by omega) (fun j hj => by
      obtain ⟨e2, he2, ha2⟩ := hbusy (j + 1) (by omega)
      refine ⟨e2, ?_, ha2⟩
      rw [← he2]
      congr 1
      push_cast
      ring)
    have hc1 : c + 1 + (d : Int) = c + ((d + 1 : Nat) : Int) := by
      push_cast
      ring
    have hr1 : rem0 - d = rem0 + 1 - (d + 1) := by omega
    simp only [DevToolsServer.tryStartLoop, he0, haddr, if_true]
    rw [hrec, range_map_shift]
    rw [hc1, hr1]
    simp

/-- Claim C10 helper: a retry loop entered with an exhausted budget never
binds and reports exhaustion one below the current port. -/
theorem tryStartServer_zero (bindOnPort : Int → Option ServerError)
    (P : Int) :
    DevToolsServer.tryStartServer bindOnPort P 0 =
      (.error (.portExhausted 0 (P - 1)), []) := rfl

/-! Claims C3, C4, C10: the port-retry loop. -/

/-- Claim C3: for every initialPort P and maxPortAttempts N at least 1,
the port-retry loop tries ports P, P+1, ... in order, incrementing by 1
only on an address-in-use failure; if the first free port is P+k with
k below N it succeeds and reports port P+k; if all N attempts fail with
address-in-use it returns PortExhaustedError with attempts = N and
lastPort = P + N - 1. -/
theorem claim_C3_port_retry (occ : Int → Bool) (P : Int) (N : Nat)
    (hN : 1 ≤ N) :
    (∀ k : Nat, k < N → (∀ i : Nat, i < k → occ (P + (i : Int)) = true) →
      occ (P + (k : Int)) = false →
      DevToolsServer.tryStartServer (bindOf occ) P N =
        (.ok (P + (k : Int)),
         (List.range (k + 1)).map (fun i : Nat => P + (i : Int)))) ∧
    ((∀ i : Nat, i < N → occ (P + (i : Int)) = true) →
      DevToolsServer.tryStartServer (bindOf occ) P N =
        (.error (.portExhausted N (P + (N : Int) - 1)),
         (List.range N).map (fun i : Nat => P + (i : Int)))) := by
  constructor
  · intro k hk hocc hfree
    have hskip := tryStartLoop_skip (bindOf occ) N k P N (by omega)
      (fun j hj =>
        ⟨eaddrInUseError (P + (j : Int)), by simp [bindOf, hocc j hj],
         eaddr_isAddrInUse _⟩)
    rw [DevToolsServer.tryStartServer, hskip]
    obtain ⟨m, hm⟩ : ∃ m, N - k = m + 1 := ⟨N - k - 1, by omega⟩
    rw [hm]
    have hbind : bindOf occ (P + (k : Int)) = none := by
      simp [bindOf, hfree]
    simp only [DevToolsServer.tryStartLoop, hbind]
    rw [List.range_succ, List.map_append]
    simp
  · intro hocc
    have hskip := tryStartLoop_skip (bindOf occ) N N P N (le_refl N)
      (fun j hj =>
        ⟨eaddrInUseError (P + (j : Int)), by simp [bindOf, hocc j hj],
         eaddr_isAddrInUse _⟩)
    rw [DevToolsServer.tryStartServer, hskip]
    simp [Nat.sub_self, DevToolsServer.tryStartLoop]

/-- Claim C3 witness: with ports 3001 and 3002 occupied and 3003 free,
bindWithRetry from 3001 with budget 5 succeeds on 3003; with every port
occupied and budget 3, it exhausts with attempts 3 and lastPort 3003. -/
theorem claim_C3_port_retry_witness :
    DevToolsServer.tryStartServer (bindOf (fun p => decide (p < 3003)))
        3001 5 = (.ok 3003, [3001, 3002, 3003]) ∧
    DevToolsServer.tryStartServer (bindOf (fun _ => true)) 3001 3 =
      (.error (.portExhausted 3 3003), [3001, 3002, 3003]) := by
  constructor
  · have h := (claim_C3_port_retry (fun p => decide (p < 3003)) 3001 5
      (by norm_num)).1 2 (by norm_num) (by decide) (by decide)
    rw [h]
    decide
  · have h := (claim_C3_port_retry (fun _ => true) 3001 3 (by norm_num)).2
      (fun i _ => rfl)
    rw [h]
    decide

/-- Claim C4: a bind attempt failing with an error that is not
address-in-use stops the loop immediately: the error is returned
unchanged (wrapped in the same ServerError variant it arrived in), never
converted into a PortExhaustedError, and no further port is tried. -/
theorem claim_C4_foreign_error_surfaced
    (bindOnPort : Int → Option ServerError) (P : Int) (N d : Nat)
    (hd : d < N)
    (hbusy : ∀ j : Nat, j < d →
      ∃ e, bindOnPort (P + (j : Int)) = some e ∧ e.isAddrInUse = true)
    (e : ServerError) (he : bindOnPort (P + (d : Int)) = some e)
    (hne : e.isAddrInUse = false) :
    DevToolsServer.tryStartServer bindOnPort P N =
      (.error (.serverError e),
       (List.range (d + 1)).map (fun j : Nat => P + (j : Int))) := by
  have hskip := tryStartLoop_skip bindOnPort N d P N (by omega) hbusy
  rw [DevToolsServer.tryStartServer, hskip]
  obtain ⟨m, hm⟩ : ∃ m, N - d = m + 1 := ⟨N - d - 1, by omega⟩
  rw [hm]
  simp only [DevToolsServer.tryStartLoop, he, hne]
  rw [List.range_succ, List.map_append]
  simp

/-- Claim C4 witness: port 4000 occupied, then a permission-denied error
on 4001 aborts the retry with that error after exactly two attempts. -/
theorem claim_C4_foreign_error_surfaced_witness :
    DevToolsServer.tryStartServer
      (fun p =>
        if p == 4000 then some (eaddrInUseError 4000)
        else some { operation := "listen", port := some p,
                    causeMsg := "listen EACCES: permission denied" })
      4000 10 =
    (.error (.serverError
      { operation := "listen", port := some 4001,
        causeMsg := "listen EACCES: permission denied" }),
     [4000, 4001]) := by
  have h := claim_C4_foreign_error_surfaced
    (fun p =>
      if p == 4000 then some (eaddrInUseError 4000)
      else some { operation := "listen", port := some p,
                  causeMsg := "listen EACCES: permission denied" })
    4000 10 1 (by norm_num)
    (fun j hj => by
      interval_cases j
      exact ⟨eaddrInUseError 4000, by decide, by decide⟩)
    { operation := "listen", port := some 4001,
      causeMsg := "listen EACCES: permission denied" }
    (by decide) (by decide)
  rw [h]
  decide

/-- Claim C10: invoking start from idle with maxPortAttempts = 0 and a
successful identity resolution attempts no bind at all (empty attempt
trace) and returns PortExhaustedError with attempts = 0 and
lastPort = initialPort - 1, a port that was never tried. -/
theorem claim_C10_zero_budget (cfg : ServerConfig) (fs : FS)
    (root gen : String) (bindOnPort : Int → Option ServerError)
    (hmax : cfg.maxPortAttempts = 0)
    (hid : ∃ u, (UUIDManager.getOrCreate fs root cfg.uuid gen).1 = .ok u) :
    (DevToolsServer.start .idle cfg fs root gen bindOnPort).2.2 =
      (.error (.portExhausted 0 (cfg.initialPort - 1)), ([] : List Int)) := by
  obtain ⟨u, hu⟩ := hid
  rcases hg : UUIDManager.getOrCreate fs root cfg.uuid gen with ⟨r, fs2, evs⟩
  rw [hg] at hu
  simp only at hu
  subst hu
  simp [DevToolsServer.start, hg, hmax, DevToolsServer.tryStartServer,
    DevToolsServer.tryStartLoop]

/-- Claim C10 witness: a configuration with a provided valid UUID and
maxPortAttempts 0 yields PortExhaustedError with attempts 0 and
lastPort 3000 although no port was ever tried. -/
theorem claim_C10_zero_budget_witness :
    (DevToolsServer.start .idle
      { endpoint := "/__devtools_json", initialPort := 3001,
        maxPortAttempts := 0, shutdownTimeoutMs := 3000,
        uuid := some GEN_UUID }
      { files := [], dirs := [] } "/srv/app" GEN_UUID
      (bindOf (fun _ => false))).2.2 =
    (.error (.portExhausted 0 3000), ([] : List Int)) := by
  have h := claim_C10_zero_budget
    { endpoint := "/__devtools_json", initialPort := 3001,
      maxPortAttempts := 0, shutdownTimeoutMs := 3000,
      uuid := some GEN_UUID }
    { files := [], dirs := [] } "/srv/app" GEN_UUID
    (bindOf (fun _ => false)) rfl ⟨GEN_UUID, by decide⟩
  rw [h]
  decide

/-! Claims C1, C2: the request responder and the rewrite routing. -/

/-- Claim C1, code behaviour at the failing input: handleRequest never
inspects the request method, so a POST to the configured endpoint of a
running server is answered 200 with the workspace JSON and without any
Allow header, where the claim (and the repository's own integration test
and shipped route template) requires 405 with Allow: GET. -/
theorem claim_C1_nonget_returns_200 :
    (DevToolsServer.handleRequest "/__devtools_json" GEN_UUID "/srv/app"
      { method := "POST", url := some "/__devtools_json" }).statusCode
      = 200 ∧
    (DevToolsServer.handleRequest "/__devtools_json" GEN_UUID "/srv/app"
      { method := "POST", url := some "/__devtools_json" }).headers.all
      (fun h => h.1 != "Allow") = true ∧
    (DevToolsServer.handleRequest "/__devtools_json" GEN_UUID "/srv/app"
      { method := "DELETE", url := some "/__devtools_json" }).statusCode
      = 200 := by
  refine ⟨by decide, by decide, by decide⟩

theorem urlPathname_chrome_path :
    urlPathname CHROME_DEVTOOLS_PATH = CHROME_DEVTOOLS_PATH := by decide

/-- Claim C2: for a running instance, a GET on the well-known Chrome path
is routed by the rewrite rules to the very same destination as the
configured endpoint, so both are answered by the same responder with the
identical 200 workspace payload. -/
theorem claim_C2_wellknown_identical_payload (endpoint : String)
    (port : Int) (uuid root : String)
    (hdest : destPathname ("http://localhost:" ++ toString port ++ endpoint)
      = endpoint)
    (hpath : urlPathname endpoint = endpoint) :
    servedResponse endpoint port uuid root
        { method := "GET", url := some CHROME_DEVTOOLS_PATH } =
      servedResponse endpoint port uuid root
        { method := "GET", url := some endpoint } ∧
    servedResponse endpoint port uuid root
        { method := "GET", url := some CHROME_DEVTOOLS_PATH } =
      some { statusCode := 200,
             headers := [("Content-Type", "application/json"),
                         ("Access-Control-Allow-Origin", "*")],
             body := devtoolsJsonBody root uuid } := by
  have hD : applyRewrites (createRewrites endpoint port)
      CHROME_DEVTOOLS_PATH =
      some ("http://localhost:" ++ toString port ++ endpoint) := by
    by_cases hc : endpoint = CHROME_DEVTOOLS_PATH
    · subst hc
      simp [applyRewrites, createRewrites, List.find?]
    · have hcb : (endpoint == CHROME_DEVTOOLS_PATH) = false := by
        simpa using hc
      simp [applyRewrites, createRewrites, List.find?, hcb]
  have hE : applyRewrites (createRewrites endpoint port) endpoint =
      some ("http://localhost:" ++ toString port ++ endpoint) := by
    simp [applyRewrites, createRewrites, List.find?]
  have hresp : DevToolsServer.handleRequest endpoint uuid root
      { method := "GET",
        url := some (destPathname
          ("http://localhost:" ++ toString port ++ endpoint)) } =
      { statusCode := 200,
        headers := [("Content-Type", "application/json"),
                    ("Access-Control-Allow-Origin", "*")],
        body := devtoolsJsonBody root uuid } := by
    rw [hdest]
    simp [DevToolsServer.handleRequest, hpath]
  constructor
  · simp [servedResponse, urlPathname_chrome_path, hD, hE, hpath]
  · simp [servedResponse, urlPathname_chrome_path, hD, hresp]

/-- Claim C2 witness: with the default endpoint and port 3001, the
well-known Chrome path and the configured endpoint give the identical
200 payload. -/
theorem claim_C2_wellknown_identical_payload_witness :
    servedResponse "/__devtools_json" 3001 GEN_UUID "/srv/app"
        { method := "GET", url := some CHROME_DEVTOOLS_PATH } =
      servedResponse "/__devtools_json" 3001 GEN_UUID "/srv/app"
        { method := "GET", url := some "/__devtools_json" } ∧
    servedResponse "/__devtools_json" 3001 GEN_UUID "/srv/app"
        { method := "GET", url := some CHROME_DEVTOOLS_PATH } =
      some { statusCode := 200,
             headers := [("Content-Type", "application/json"),
                         ("Access-Control-Allow-Origin", "*")],
             body := devtoolsJsonBody "/srv/app" GEN_UUID } :=
  claim_C2_wellknown_identical_payload "/__devtools_json" 3001 GEN_UUID
    "/srv/app" (by decide) (by decide)

/-! Claims C5, C9: the provided-identifier branch of getOrCreate. -/

/-- Claim C5 counterexample: the empty string is a caller-supplied
identifier that does not match the UUID v4 pattern, yet identity
resolution does not fail with a validate error: it falls through to the
cache path, succeeds with a generated UUID and performs a filesystem
write, refuting the claim as universally stated. -/
theorem claim_C5_counterexample :
    uuidV4Test "" = false ∧
    (UUIDManager.getOrCreate { files := [], dirs := [] } "/srv/app"
      (some "") GEN_UUID).1 = .ok GEN_UUID ∧
    ((UUIDManager.getOrCreate { files := [], dirs := [] } "/srv/app"
      (some "") GEN_UUID).2.2.any FSEvent.isWrite) = true := by
  refine ⟨by decide, by decide, by decide⟩

/-- Claim C5 amended: for every NON-EMPTY caller-supplied identifier, a
pattern match returns it verbatim with no filesystem operation at all,
and a mismatch fails with a validate-tagged error, again with no
filesystem operation; a supplied empty string instead bypasses validation
and falls through to the cache path (claim C9). -/
theorem claim_C5_provided_identifier (s : String) (hs : s ≠ "")
    (fs : FS) (root gen : String) :
    (uuidV4Test s = true →
      UUIDManager.getOrCreate fs root (some s) gen = (.ok s, fs, [])) ∧
    (uuidV4Test s = false →
      UUIDManager.getOrCreate fs root (some s) gen =
        (.error { operation := .validate, path := none,
                  causeMsg := "Invalid UUID format: " ++ s }, fs, [])) := by
  have htr : jsTruthy (some s) = true := by
    simp [jsTruthy, hs]
  constructor
  · intro hv
    simp [UUIDManager.getOrCreate, htr, UUIDManager.validate, hv]
  · intro hv
    simp [UUIDManager.getOrCreate, htr, UUIDManager.validate, hv]

/-- Claim C5 amended witness: a valid provided UUID is returned verbatim
with no filesystem event; an invalid non-empty one fails with the
validate error, also with no filesystem event. -/
theorem claim_C5_provided_identifier_witness :
    UUIDManager.getOrCreate { files := [], dirs := [] } "/srv/app"
        (some GEN_UUID) GEN_UUID2 =
      (.ok GEN_UUID, { files := [], dirs := [] }, []) ∧
    UUIDManager.getOrCreate { files := [], dirs := [] } "/srv/app"
        (some "not-a-uuid") GEN_UUID2 =
      (.error { operation := .validate, path := none,
                causeMsg := "Invalid UUID format: not-a-uuid" },
       { files := [], dirs := [] }, []) :=
  ⟨(claim_C5_provided_identifier GEN_UUID (by decide)
      { files := [], dirs := [] } "/srv/app" GEN_UUID2).1 (by decide),
   (claim_C5_provided_identifier "not-a-uuid" (by decide)
      { files := [], dirs := [] } "/srv/app" GEN_UUID2).2 (by decide)⟩

/-- Claim C9: a caller-supplied empty string fails the truthiness test of
the provided-identifier branch, so resolution behaves exactly as if no
identifier were provided: it falls through to the cache-file path. -/
theorem claim_C9_empty_provided_is_absent (fs : FS) (root gen : String) :
    UUIDManager.getOrCreate fs root (some "") gen =
      UUIDManager.getOrCreate fs root none gen := by
  simp [UUIDManager.getOrCreate, jsTruthy]

/-! Claim C6: stop semantics. -/

/-- Claim C6: stop in any state other than running returns success and
leaves the state unchanged; stop from running always leaves the state
stopped, returning success when graceful shutdown completed and a
stop-tagged ServerError when the deadline elapsed or close failed. -/
theorem claim_C6_stop_always_stopped (st : ServerState)
    (o : ShutdownOutcome) :
    ((∀ p : Int, st ≠ .running p) →
      DevToolsServer.stop st o = (st, .ok ())) ∧
    (∀ p : Int, st = .running p →
      (DevToolsServer.stop st o).1 = .stopped ∧
      (o = .completed → (DevToolsServer.stop st o).2 = .ok ()) ∧
      (o ≠ .completed → ∃ e, (DevToolsServer.stop st o).2 = .error e ∧
        e.operation = "stop")) := by
  constructor
  · intro hnr
    cases st with
    | running p => exact absurd rfl (hnr p)
    | idle => rfl
    | starting p => rfl
    | stopping => rfl
    | stopped => rfl
  · intro p hst
    subst hst
    cases o with
    | completed => exact ⟨rfl, fun _ => rfl, fun h => absurd rfl h⟩
    | timedOut =>
        refine ⟨rfl, ?_, ?_⟩
        · intro h
          exact ShutdownOutcome.noConfusion h
        · intro _
          exact ⟨{ operation := "stop", port := none,
                   causeMsg := "Server shutdown timed out" }, rfl, rfl⟩
    | closeFailed msg =>
        refine ⟨rfl, ?_, ?_⟩
        · intro h
          exact ShutdownOutcome.noConfusion h
        · intro _
          exact ⟨{ operation := "stop", port := none, causeMsg := msg },
                 rfl, rfl⟩

/-- Claim C6 witness: stop on an idle instance is a no-op success; stop
on a running instance whose shutdown times out still ends stopped. -/
theorem claim_C6_stop_always_stopped_witness :
    DevToolsServer.stop .idle .completed = (.idle, .ok ()) ∧
    (DevToolsServer.stop (.running 3001) .timedOut).1 = .stopped :=
  ⟨(claim_C6_stop_always_stopped .idle .completed).1
      (fun p h => by cases h),
   ((claim_C6_stop_always_stopped (.running 3001) .timedOut).2 3001
      rfl).1⟩

/-! Claim C7: idempotent identity resolution. -/

theorem FS.readFile_writeFile_self (fs : FS) (p c : String) :
    (fs.writeFile p c).readFile p = some c := by
  simp [FS.writeFile, FS.readFile]

/-- A read that finds a cached value passing validation is a pure cache
hit: the value is returned trimmed, the filesystem is untouched and no
write event occurs. -/
theorem getOrCreate_hit (fs : FS) (root g c : String)
    (hc : fs.readFile (UUIDManager.uuidPathOf root) = some c)
    (hv : uuidV4Test (jsTrim c) = true) :
    UUIDManager.getOrCreate fs root none g =
      (.ok (jsTrim c), fs,
       [FSEvent.checkExists (UUIDManager.uuidPathOf root),
        FSEvent.readFile (UUIDManager.uuidPathOf root)]) := by
  simp [UUIDManager.getOrCreate, jsTruthy, UUIDManager.read, hc,
    UUIDManager.validate, hv]

/-- A read miss (no file, or content failing validation) generates and
persists: the result is the generated value and the cache file afterwards
holds exactly that value. -/
theorem getOrCreate_miss (fs : FS) (root g : String)
    (hmiss : ∀ c, fs.readFile (UUIDManager.uuidPathOf root) = some c →
      uuidV4Test (jsTrim c) = false) :
    (UUIDManager.getOrCreate fs root none g).1 = .ok g ∧
    ((UUIDManager.getOrCreate fs root none g).2.1.readFile
      (UUIDManager.uuidPathOf root)) = some g := by
  by_cases hdir : fs.dirExists (UUIDManager.cacheDirOf root) = true
  all_goals cases hc : fs.readFile (UUIDManager.uuidPathOf root) with
  | none =>
      simp [UUIDManager.getOrCreate, jsTruthy, UUIDManager.read, hc,
        UUIDManager.createAndPersist, hdir, FS.readFile_writeFile_self]
  | some c =>
      have hv := hmiss c hc
      simp [UUIDManager.getOrCreate, jsTruthy, UUIDManager.read, hc,
        UUIDManager.validate, hv, UUIDManager.createAndPersist, hdir,
        FS.readFile_writeFile_self]

/-- Claim C7: with no caller-supplied identifier, resolving identity
twice in sequence returns the same UUID both times and leaves the cache
file holding (up to trimming) exactly that UUID; a first call that finds
a valid cached UUID returns it without any filesystem mutation. The
hypotheses state that the generator output is a canonical UUID, which
crypto.randomUUID guarantees. -/
theorem claim_C7_idempotent_identity (fs0 : FS) (root g1 g2 : String)
    (hg : uuidV4Test g1 = true) (ht : jsTrim g1 = g1) :
    ∃ u,
      (UUIDManager.getOrCreate fs0 root none g1).1 = .ok u ∧
      (UUIDManager.getOrCreate
        (UUIDManager.getOrCreate fs0 root none g1).2.1 root none g2).1 =
        .ok u ∧
      (((UUIDManager.getOrCreate
          (UUIDManager.getOrCreate fs0 root none g1).2.1 root none
          g2).2.1.readFile (UUIDManager.uuidPathOf root)).map jsTrim) =
        some u ∧
      (∀ c, fs0.readFile (UUIDManager.uuidPathOf root) = some c →
        uuidV4Test (jsTrim c) = true →
          (UUIDManager.getOrCreate fs0 root none g1).2.1 = fs0 ∧
          ((UUIDManager.getOrCreate fs0 root none g1).2.2.any
            FSEvent.isWrite) = false) := by
  by_cases hhit : ∃ c,
      fs0.readFile (UUIDManager.uuidPathOf root) = some c ∧
      uuidV4Test (jsTrim c) = true
  · obtain ⟨c, hc, hv⟩ := hhit
    have h1 := getOrCreate_hit fs0 root g1 c hc hv
    refine ⟨jsTrim c, by rw [h1], ?_, ?_, ?_⟩
    · rw [h1]
      simp only
      rw [getOrCreate_hit fs0 root g2 c hc hv]
    · rw [h1]
      simp only
      rw [getOrCreate_hit fs0 root g2 c hc hv]
      simp [hc]
    · intro c2 hc2 _
      rw [h1]
      exact ⟨rfl, rfl⟩
  · have hmiss : ∀ c,
        fs0.readFile (UUIDManager.uuidPathOf root) = some c →
        uuidV4Test (jsTrim c) = false := by
      intro c hc
      by_contra hv
      exact hhit ⟨c, hc, by simpa using hv⟩
    obtain ⟨h1, hfile⟩ := getOrCreate_miss fs0 root g1 hmiss
    have h2 := getOrCreate_hit
      (UUIDManager.getOrCreate fs0 root none g1).2.1 root g2 g1 hfile
      (by rw [ht]; exact hg)
    refine ⟨g1, h1, ?_, ?_, ?_⟩
    · rw [h2, ht]
    · rw [h2]
      simp [hfile, ht]
    · intro c hc hv
      exact absurd ⟨c, hc, hv⟩ hhit

/-- Claim C7 witness: starting from an empty filesystem, two successive
resolutions both return the first generated UUID and the cache file holds
it afterwards. -/
theorem claim_C7_idempotent_identity_witness :
    ∃ u,
      (UUIDManager.getOrCreate { files := [], dirs := [] } "/srv/app"
        none GEN_UUID).1 = .ok u ∧
      (UUIDManager.getOrCreate
        (UUIDManager.getOrCreate { files := [], dirs := [] } "/srv/app"
          none GEN_UUID).2.1 "/srv/app" none GEN_UUID2).1 = .ok u ∧
      (((UUIDManager.getOrCreate
          (UUIDManager.getOrCreate { files := [], dirs := [] } "/srv/app"
            none GEN_UUID).2.1 "/srv/app" none
          GEN_UUID2).2.1.readFile
          (UUIDManager.uuidPathOf "/srv/app")).map jsTrim) = some u ∧
      (∀ c, FS.readFile { files := [], dirs := [] } (UUIDManager.uuidPathOf "/srv/app") = some c →
        uuidV4Test (jsTrim c) = true →
          (UUIDManager.getOrCreate { files := [], dirs := [] } "/srv/app"
            none GEN_UUID).2.1 = { files := [], dirs := [] } ∧
          ((UUIDManager.getOrCreate { files := [], dirs := [] }
            "/srv/app" none GEN_UUID).2.2.any FSEvent.isWrite) = false) :=
  claim_C7_idempotent_identity { files := [], dirs := [] } "/srv/app"
    GEN_UUID GEN_UUID2 (by decide) (by decide)

/-! Claim C8: idempotent start on the supervisor. -/

/-- Claim C8: while the owned instance is running on port p, every call
to the supervisor startServer returns success with that same port p,
constructs no second instance (the constructed flag is false) and leaves
the manager state unchanged; two sequential calls therefore both return
p, and the manager owns at most one instance throughout. -/
theorem claim_C8_idempotent_start (m : ManagerState) (i : Nat)
    (st : ServerState) (p : Int) (hs : m.server = some (i, st))
    (hp : DevToolsServer.getPort st = some p) (n1 n2 : Nat)
    (o1 o2 : Except DevToolsError Int) :
    ServerManager.startServer m n1 o1 = (m, .ok p, false) ∧
    ServerManager.startServer (ServerManager.startServer m n1 o1).1 n2 o2 =
      (m, .ok p, false) := by
  have h1 : ServerManager.startServer m n1 o1 = (m, .ok p, false) := by
    simp [ServerManager.startServer, hs, hp]
  exact ⟨h1, by rw [h1]; simp [ServerManager.startServer, hs, hp]⟩

/-- Claim C8 witness: a manager owning a running instance on port 3001
answers two successive start calls with port 3001 and no construction. -/
theorem claim_C8_idempotent_start_witness :
    ServerManager.startServer
        { server := some (0, .running 3001), cleanupRegistered := true }
        1 (.ok 4000) =
      ({ server := some (0, .running 3001), cleanupRegistered := true },
       .ok 3001, false) ∧
    ServerManager.startServer
        (ServerManager.startServer
          { server := some (0, .running 3001), cleanupRegistered := true }
          1 (.ok 4000)).1 2 (.error (.configError "later")) =
      ({ server := some (0, .running 3001), cleanupRegistered := true },
       .ok 3001, false) :=
  claim_C8_idempotent_start
    { server := some (0, .running 3001), cleanupRegistered := true }
    0 (.running 3001) 3001 rfl rfl 1 2 (.ok 4000)
    (.error (.configError "later"))

end DevtoolsJson
